import Mathlib

/-!
Shallow embedding of the Auto_Screen_Switch core (src/screen.rs and the
MQTT supervisor loop in src/main.rs), with theorems checking the
natural-language specification against the code.

Side effects are made explicit: the actuator broadcast becomes a list of
recorded calls, the global `SCREEN_STATE` atomic becomes an explicit
`Bool` threaded through the functions, timestamps (`Instant`) become
`Nat`, and the status channel becomes a list of emitted events.
-/

namespace AutoScreenSwitch

/-! ## src/screen.rs -/

/-- The `ScreenState` enum from screen.rs. -/
inductive ScreenState where
  | On
  | Off
  | Unknown
deriving DecidableEq, Repr

/-- Function `get_display_state`: reads the tracked `SCREEN_STATE` bool (true = on). -/
def get_display_state (screenState : Bool) : ScreenState :=
  if screenState then ScreenState.On else ScreenState.Off

/-- Function `set_display(on)`: broadcasts the monitor-power message and stores the new
tracked state. Returns (new tracked state, actuator calls made). -/
def set_display (onFlag : Bool) : Bool × List Bool :=
  (onFlag, [onFlag])

/-- Function `set_display_smart(target_state)`: returns (performed?, new tracked state,
actuator calls made), exactly following the match in screen.rs lines 46-66. -/
def set_display_smart (target_state : Bool) (screenState : Bool) :
    Bool × Bool × List Bool :=
  let current_state := get_display_state screenState
  let target_screen_state :=
    if target_state then ScreenState.On else ScreenState.Off
  match current_state, target_screen_state with
  | ScreenState.On, ScreenState.On => (false, screenState, [])
  | ScreenState.Off, ScreenState.Off => (false, screenState, [])
  | _, _ =>
    let (newState, calls) := set_display target_state
    (true, newState, calls)

/-- Run a sequence of `set_display_smart` requests through the gate, collecting
every actuator call made, starting from tracked state `s`. -/
def gate_run (s : Bool) : List Bool → Bool × List Bool
  | [] => (s, [])
  | t :: ts =>
    let r := set_display_smart t s
    let rest := gate_run r.2.1 ts
    (rest.1, r.2.2 ++ rest.2)

/-! ## JSON parsing (serde_json as used by main.rs)

`serde_json::from_slice::<MqttMessage>` parses standard JSON and requires a
top-level object with a required string field `action` and an optional field
`params`. The parser below follows the JSON grammar; fuel bounds recursion.
Brace characters are written with hex escapes throughout. -/

/-- JSON values; number lexemes are kept as strings (their numeric value is
never inspected by the program). -/
inductive Json where
  | null
  | bool (b : Bool)
  | num (lexeme : String)
  | str (s : String)
  | arr (elems : List Json)
  | obj (members : List (String × Json))
deriving Repr

def isJsonWs (c : Char) : Bool :=
  c = ' ' || c = '\n' || c = '\r' || c = '\t'

def skipWs : List Char → List Char
  | [] => []
  | c :: rest => if isJsonWs c then skipWs rest else c :: rest

def hexVal (c : Char) : Option Nat :=
  if '0' ≤ c ∧ c ≤ '9' then some (c.toNat - '0'.toNat)
  else if 'a' ≤ c ∧ c ≤ 'f' then some (c.toNat - 'a'.toNat + 10)
  else if 'A' ≤ c ∧ c ≤ 'F' then some (c.toNat - 'A'.toNat + 10)
  else none

/-- Body of a JSON string after the opening quote; returns the decoded
characters and the input following the closing quote. -/
def parseStringBody : Nat → List Char → Option (List Char × List Char)
  | 0, _ => none
  | _, [] => none
  | fuel + 1, c :: rest =>
    if c = '"' then some ([], rest)
    else if c = '\\' then
      let dec : Option (Char × List Char) :=
        match rest with
        | [] => none
        | e :: rest2 =>
          if e = '"' then some ('"', rest2)
          else if e = '\\' then some ('\\', rest2)
          else if e = '/' then some ('/', rest2)
          else if e = 'b' then some ('\x08', rest2)
          else if e = 'f' then some ('\x0c', rest2)
          else if e = 'n' then some ('\n', rest2)
          else if e = 'r' then some ('\x0d', rest2)
          else if e = 't' then some ('\t', rest2)
          else if e = 'u' then
            match rest2 with
            | h1 :: h2 :: h3 :: h4 :: rest3 =>
              match hexVal h1, hexVal h2, hexVal h3, hexVal h4 with
              | some a, some b, some c2, some d =>
                some (Char.ofNat (((a * 16 + b) * 16 + c2) * 16 + d), rest3)
              | _, _, _, _ => none
            | _ => none
          else none
      match dec with
      | some (ch, rest3) =>
        (parseStringBody fuel rest3).map (fun r => (ch :: r.1, r.2))
      | none => none
    else if c.toNat < 32 then none
    else (parseStringBody fuel rest).map (fun r => (c :: r.1, r.2))

def isJsonDigit (c : Char) : Bool := '0' ≤ c && c ≤ '9'

def takeDigits : List Char → List Char × List Char
  | [] => ([], [])
  | c :: rest =>
    if isJsonDigit c then
      let r := takeDigits rest
      (c :: r.1, r.2)
    else ([], c :: rest)

def parseFracPart : List Char → Option (List Char × List Char)
  | '.' :: rest =>
    match takeDigits rest with
    | ([], _) => none
    | (ds, rest2) => some ('.' :: ds, rest2)
  | cs => some ([], cs)

def parseExpPart : List Char → Option (List Char × List Char)
  | [] => some ([], [])
  | c :: rest =>
    if c = 'e' || c = 'E' then
      let sg : List Char × List Char :=
        match rest with
        | '+' :: r => (['+'], r)
        | '-' :: r => (['-'], r)
        | _ => ([], rest)
      match takeDigits sg.2 with
      | ([], _) => none
      | (ds, rest3) => some (c :: (sg.1 ++ ds), rest3)
    else some ([], c :: rest)

/-- JSON number: optional sign, integer part without leading zeros, optional
fraction and exponent. Returns the lexeme and the remaining input. -/
def parseNumber (cs : List Char) : Option (List Char × List Char) :=
  let sgn : List Char × List Char :=
    match cs with
    | '-' :: rest => (['-'], rest)
    | _ => ([], cs)
  let intPart : Option (List Char × List Char) :=
    match sgn.2 with
    | '0' :: rest => some (['0'], rest)
    | c :: rest =>
      if isJsonDigit c then
        let r := takeDigits rest
        some (c :: r.1, r.2)
      else none
    | [] => none
  match intPart with
  | none => none
  | some (ip, rest1) =>
    match parseFracPart rest1 with
    | none => none
    | some (fp, rest2) =>
      match parseExpPart rest2 with
      | none => none
      | some (ep, rest3) => some (sgn.1 ++ ip ++ fp ++ ep, rest3)

mutual

/-- One JSON value, leading whitespace allowed. -/
def parseValue : Nat → List Char → Option (Json × List Char)
  | 0, _ => none
  | fuel + 1, cs =>
    match skipWs cs with
    | [] => none
    | c :: rest =>
      if c = '\x7b' then parseObjBody fuel rest
      else if c = '[' then parseArrBody fuel rest
      else if c = '"' then
        match parseStringBody (rest.length + 1) rest with
        | some (body, rest2) => some (Json.str (String.mk body), rest2)
        | none => none
      else if c = 't' then
        match rest with
        | 'r' :: 'u' :: 'e' :: rest2 => some (Json.bool true, rest2)
        | _ => none
      else if c = 'f' then
        match rest with
        | 'a' :: 'l' :: 's' :: 'e' :: rest2 => some (Json.bool false, rest2)
        | _ => none
      else if c = 'n' then
        match rest with
        | 'u' :: 'l' :: 'l' :: rest2 => some (Json.null, rest2)
        | _ => none
      else
        match parseNumber (c :: rest) with
        | some (lex, rest2) => some (Json.num (String.mk lex), rest2)
        | none => none

/-- Object body after the opening brace. -/
def parseObjBody : Nat → List Char → Option (Json × List Char)
  | 0, _ => none
  | fuel + 1, cs =>
    match skipWs cs with
    | '\x7d' :: rest => some (Json.obj [], rest)
    | cs1 =>
      match parseMembers fuel cs1 with
      | some (ms, rest) => some (Json.obj ms, rest)
      | none => none

/-- One or more `"key": value` members, consuming the closing brace. -/
def parseMembers : Nat → List Char → Option (List (String × Json) × List Char)
  | 0, _ => none
  | fuel + 1, cs =>
    match skipWs cs with
    | '"' :: rest =>
      match parseStringBody (rest.length + 1) rest with
      | some (key, rest2) =>
        match skipWs rest2 with
        | ':' :: rest3 =>
          match parseValue fuel rest3 with
          | some (v, rest4) =>
            match skipWs rest4 with
            | ',' :: rest5 =>
              match parseMembers fuel rest5 with
              | some (ms, rest6) => some ((String.mk key, v) :: ms, rest6)
              | none => none
            | '\x7d' :: rest5 => some ([(String.mk key, v)], rest5)
            | _ => none
          | none => none
        | _ => none
      | none => none
    | _ => none

/-- Array body after the opening bracket. -/
def parseArrBody : Nat → List Char → Option (Json × List Char)
  | 0, _ => none
  | fuel + 1, cs =>
    match skipWs cs with
    | ']' :: rest => some (Json.arr [], rest)
    | cs1 =>
      match parseElems fuel cs1 with
      | some (es, rest) => some (Json.arr es, rest)
      | none => none

/-- One or more array elements, consuming the closing bracket. -/
def parseElems : Nat → List Char → Option (List Json × List Char)
  | 0, _ => none
  | fuel + 1, cs =>
    match parseValue fuel cs with
    | some (v, rest) =>
      match skipWs rest with
      | ',' :: rest2 =>
        match parseElems fuel rest2 with
        | some (es, rest3) => some (v :: es, rest3)
        | none => none
      | ']' :: rest2 => some ([v], rest2)
      | _ => none
    | none => none

end

/-- Whole-input JSON parse: one value, then only trailing whitespace. -/
def parseJson (payload : String) : Option Json :=
  let cs := payload.toList
  match parseValue (2 * cs.length + 2) cs with
  | some (v, rest) =>
    match skipWs rest with
    | [] => some v
    | _ => none
  | none => none

/-! ## src/main.rs: message decoding -/

/-- The `MqttMessage` struct from main.rs (serde Deserialize). -/
structure MqttMessage where
  action : String
  params : Option Json
deriving Repr

def lookupField (key : String) : List (String × Json) → Option Json
  | [] => none
  | (k, v) :: rest => if k = key then some v else lookupField key rest

/-- serde derive for `MqttMessage`: a JSON object with a required string
field `action`; `params : Option<Value>` is absent or `null` ↦ `None`. -/
def mqttMessageFromJson : Json → Option MqttMessage
  | Json.obj members =>
    match lookupField "action" members with
    | some (Json.str a) =>
      match lookupField "params" members with
      | some Json.null => some ⟨a, none⟩
      | p => some ⟨a, p⟩
    | _ => none
  | _ => none

/-- Parse `serde_json::from_slice::<MqttMessage>` on a payload (main.rs line 438). -/
def from_slice_MqttMessage (payload : String) : Option MqttMessage :=
  (parseJson payload).bind mqttMessageFromJson

/-- Source extraction from `params` (main.rs lines 440-446). -/
def extract_source (msg : MqttMessage) : String :=
  match msg.params with
  | some (Json.obj members) =>
    match lookupField "source" members with
    | some (Json.str s) => s
    | _ => "unknown"
  | _ => "unknown"

/-- Outcome of handling one publish payload (main.rs lines 438-481). -/
inductive HandleResult where
  | powerOn
  | powerOff
  | unknownAction (action : String)
  | parseError
deriving DecidableEq, Repr

/-- Classification of a payload by the handler's two-level match: structured
parse first, then dispatch on `action`; no other decoding is attempted. -/
def classify_payload (payload : String) : HandleResult :=
  match from_slice_MqttMessage payload with
  | some msg =>
    match msg.action with
    | "on" => HandleResult.powerOn
    | "off" => HandleResult.powerOff
    | a => HandleResult.unknownAction a
  | none => HandleResult.parseError

/-- The publish branch of the poll loop: parse, dispatch on `action`,
drive the Actuation Gate. Returns (classification, new gate state, actuator
calls made). A failed parse only logs (main.rs lines 477-480). -/
def handle_payload (payload : String) (screenState : Bool) :
    HandleResult × Bool × List Bool :=
  match from_slice_MqttMessage payload with
  | some msg =>
    match msg.action with
    | "on" =>
      let r := set_display_smart true screenState
      (HandleResult.powerOn, r.2.1, r.2.2)
    | "off" =>
      let r := set_display_smart false screenState
      (HandleResult.powerOff, r.2.1, r.2.2)
    | a => (HandleResult.unknownAction a, screenState, [])
  | none => (HandleResult.parseError, screenState, [])

/-! ## src/main.rs: connection lifecycle (run_mqtt_client)

The `tokio::select!` loop is embedded as a step function: one step consumes
either a host command (possibly a closed channel) or one execution of the
connection async block. Inside one execution of the block, the environment
supplies the config-load result, the subscribe result and a finite trace of
poll results. `Instant` becomes a `Nat` timestamp passed in. -/

/-- The `Config` struct from main.rs. -/
structure Config where
  broker_ip : String
  broker_port : Nat
  username : Option String
  password : Option String
deriving DecidableEq, Repr

/-- The `ConnectionState` enum from main.rs. -/
inductive ConnectionState where
  | Disconnected
  | Connecting
  | Connected
  | Reconnecting
deriving DecidableEq, Repr

/-- The `ConnectionStats` struct from main.rs; `Instant` is modelled as `Nat`. -/
structure ConnectionStats where
  total_connections : Nat
  successful_connections : Nat
  failed_connections : Nat
  last_connection_time : Option Nat
  last_disconnection_time : Option Nat
  total_uptime : Nat
  current_uptime : Option Nat
deriving DecidableEq, Repr

def ConnectionStats.new : ConnectionStats :=
  ⟨0, 0, 0, none, none, 0, none⟩

def ConnectionStats.on_connection_start (st : ConnectionStats) (now : Nat) :
    ConnectionStats :=
  { st with
    total_connections := st.total_connections + 1
    last_connection_time := some now
    current_uptime := some now }

def ConnectionStats.on_connection_success (st : ConnectionStats) :
    ConnectionStats :=
  { st with successful_connections := st.successful_connections + 1 }

def ConnectionStats.on_connection_failure (st : ConnectionStats) :
    ConnectionStats :=
  { st with failed_connections := st.failed_connections + 1 }

def ConnectionStats.on_disconnection (st : ConnectionStats) (now : Nat) :
    ConnectionStats :=
  match st.current_uptime with
  | some start =>
    { st with
      total_uptime := st.total_uptime + (now - start)
      last_disconnection_time := some now
      current_uptime := none }
  | none => st

/-- The `MqttCommand` enum from main.rs. -/
inductive MqttCommand where
  | Start
  | Stop
deriving DecidableEq, Repr

/-- The `MqttStatus` enum from main.rs. -/
inductive MqttStatus where
  | Started
  | Stopped
  | Error (msg : String)
deriving DecidableEq, Repr

/-- Retry constants from main.rs lines 322-324 (delays in seconds). -/
def MAX_RETRIES : Nat := 10

def INITIAL_RETRY_DELAY : Nat := 1

def MAX_RETRY_DELAY : Nat := 60

/-- The mutable locals of `run_mqtt_client`, plus the gate's tracked screen
state. -/
structure AgentState where
  retry_count : Nat
  current_retry_delay : Nat
  mqtt_running : Bool
  connection_state : ConnectionState
  connection_stats : ConnectionStats
  screen_state : Bool
deriving DecidableEq, Repr

/-- Locals at entry of `run_mqtt_client`; `SCREEN_STATE` defaults to true. -/
def initialAgent : AgentState :=
  ⟨0, INITIAL_RETRY_DELAY, false, ConnectionState.Disconnected,
    ConnectionStats.new, true⟩

/-- Observable output of one supervisor step: new state, status events sent,
backoff sleeps performed (seconds), actuator calls made, and whether the
outer loop terminated (`break`). -/
structure StepOut where
  state : AgentState
  statuses : List MqttStatus
  sleeps : List Nat
  actuations : List Bool
  terminated : Bool
deriving DecidableEq, Repr

/-- The command arm of the select loop (main.rs lines 337-362). Note the
Stop handler assigns `connection_state = Disconnected` before the
`if let Connected` test, so its stats branch is tested on the new value. -/
def handle_command (s : AgentState) (now : Nat) (cmd : Option MqttCommand) :
    StepOut :=
  match cmd with
  | some MqttCommand.Start =>
    if !s.mqtt_running then
      ⟨{ s with
          mqtt_running := true
          connection_state := ConnectionState.Connecting
          retry_count := 0
          current_retry_delay := INITIAL_RETRY_DELAY }, [], [], [], false⟩
    else ⟨s, [], [], [], false⟩
  | some MqttCommand.Stop =>
    let s1 := { s with
      mqtt_running := false
      connection_state := ConnectionState.Disconnected }
    let s2 :=
      if s1.connection_state = ConnectionState.Connected then
        { s1 with connection_stats := s1.connection_stats.on_disconnection now }
      else s1
    ⟨s2, [MqttStatus.Stopped], [], [], false⟩
  | none => ⟨s, [MqttStatus.Stopped], [], [], true⟩

/-- One result of `timeout(500ms, eventloop.poll())` (main.rs lines 431-497). -/
inductive PollResult where
  | publish (payload : String)
  | disconnect
  | otherEvent
  | connError (msg : String)
  | pollTimeout
deriving DecidableEq, Repr

/-- Result of running the inner poll loop on a finite trace: state after the
trace, actuator calls made, and whether the loop exited via `break`. -/
structure PollLoopOut where
  state : AgentState
  actuations : List Bool
  broke : Bool
deriving DecidableEq, Repr

/-- The inner poll loop (main.rs lines 423-499) run over a finite trace of
poll results; an exhausted trace leaves the loop still polling. -/
def poll_loop (s : AgentState) (now : Nat) : List PollResult → PollLoopOut
  | [] => ⟨s, [], false⟩
  | ev :: rest =>
    if !s.mqtt_running then
      ⟨{ s with
          connection_state := ConnectionState.Disconnected
          connection_stats := s.connection_stats.on_disconnection now },
        [], true⟩
    else
      match ev with
      | PollResult.publish payload =>
        let r := handle_payload payload s.screen_state
        let out := poll_loop { s with screen_state := r.2.1 } now rest
        ⟨out.state, r.2.2 ++ out.actuations, out.broke⟩
      | PollResult.disconnect =>
        ⟨{ s with
            connection_state := ConnectionState.Disconnected
            connection_stats := s.connection_stats.on_disconnection now },
          [], true⟩
      | PollResult.connError _ =>
        ⟨{ s with
            connection_state := ConnectionState.Disconnected
            connection_stats := s.connection_stats.on_disconnection now },
          [], true⟩
      | PollResult.otherEvent => poll_loop s now rest
      | PollResult.pollTimeout => poll_loop s now rest

/-- Environment of one execution of the connection async block: the result of
`load_config`, the result of `client.subscribe`, and the poll trace. -/
structure AttemptEnv where
  cfg : Except String Config
  subscribeResult : Except String Unit
  polls : List PollResult
deriving Repr

/-- One execution of the connection async block (main.rs lines 365-532). -/
def attempt (s : AgentState) (now : Nat) (env : AttemptEnv) : StepOut :=
  if !s.mqtt_running then
    ⟨s, [], [], [], false⟩
  else
    match env.cfg with
    | Except.error e =>
      ⟨{ s with
          connection_state := ConnectionState.Disconnected
          mqtt_running := false },
        [MqttStatus.Error ("启动 MQTT 连接失败（配置错误）：" ++ e),
          MqttStatus.Stopped], [], [], false⟩
    | Except.ok _cfg =>
      let started :=
        s.connection_state = ConnectionState.Connecting
      let stats1 :=
        if started then s.connection_stats.on_connection_start now
        else s.connection_stats
      let statuses1 : List MqttStatus :=
        if started then [MqttStatus.Started] else []
      match env.subscribeResult with
      | Except.ok _ =>
        let s1 := { s with
          connection_state := ConnectionState.Connected
          connection_stats := stats1.on_connection_success
          retry_count := 0
          current_retry_delay := INITIAL_RETRY_DELAY }
        let out := poll_loop s1 now env.polls
        ⟨out.state, statuses1, [], out.actuations, false⟩
      | Except.error e =>
        let stats2 := stats1.on_connection_failure
        let retry := s.retry_count + 1
        if retry ≥ MAX_RETRIES then
          ⟨{ s with
              connection_state := ConnectionState.Disconnected
              connection_stats := stats2
              retry_count := retry
              mqtt_running := false },
            statuses1 ++
              [MqttStatus.Error ("MQTT 订阅失败: " ++ e), MqttStatus.Stopped],
            [], [], false⟩
        else
          let delay := min (s.current_retry_delay * 2) MAX_RETRY_DELAY
          ⟨{ s with
              connection_state := ConnectionState.Reconnecting
              connection_stats := stats2
              retry_count := retry
              current_retry_delay := delay },
            statuses1, [delay], [], false⟩

/-- Input consumed by one iteration of the outer select loop: either the
command arm fires (with `none` for a closed channel) or the connection arm
runs to completion. -/
inductive SuperInput where
  | command (cmd : Option MqttCommand)
  | connection (env : AttemptEnv)

/-- One iteration of the outer `loop` with `tokio::select!`. -/
def supervisor_step (s : AgentState) (now : Nat) : SuperInput → StepOut
  | SuperInput.command cmd => handle_command s now cmd
  | SuperInput.connection env => attempt s now env

/-! ### Backoff delay sequence simulation -/

/-- A config that loads successfully (the shape is irrelevant to control
flow). -/
def okConfig : Config := ⟨"localhost", 1883, none, none⟩

/-- An attempt environment in which `client.subscribe` fails. -/
def failureEnv : AttemptEnv :=
  ⟨Except.ok okConfig, Except.error "Network unavailable", []⟩

/-- Run `n` consecutive failing attempts, collecting the backoff sleeps. -/
def run_failures : AgentState → Nat → AgentState × List Nat
  | s, 0 => (s, [])
  | s, n + 1 =>
    let out := attempt s 0 failureEnv
    let rest := run_failures out.state n
    (rest.1, out.sleeps ++ rest.2)

/-- State right after the first `Start` command. -/
def startState : AgentState :=
  (handle_command initialAgent 0 (some MqttCommand.Start)).state

/-- The backoff sleeps observed over `n` consecutive subscribe failures
starting from a fresh `Start`. -/
def observed_delays (n : Nat) : List Nat :=
  (run_failures startState n).2

/-- State after a fresh `Start` whose first session opened successfully. -/
def connectedState : AgentState :=
  (attempt startState 0 ⟨Except.ok okConfig, Except.ok (), []⟩).state

/-- State after a fresh `Start` followed by nine consecutive subscribe
failures: one failure away from retry exhaustion. -/
def nineFailState : AgentState :=
  (run_failures startState 9).1

/-! ## Theorems -/

theorem set_display_smart_eq (t s : Bool) :
    set_display_smart t s =
      if t = s then (false, s, []) else (true, t, [t]) := by
  cases t <;> cases s <;> decide

theorem gate_run_fixed (t : Bool) :
    ∀ n, gate_run t (List.replicate n t) = (t, []) := by
  intro n
  induction n with
  | zero => rfl
  | succ n ih =>
    simp only [List.replicate_succ, gate_run, set_display_smart_eq, if_pos rfl]
    simpa using ih

/-- C1: the Actuation Gate is a no-op returning false when the target equals
the tracked state, otherwise invokes the actuator once with the target,
updates the tracked state and returns true; consequently a run of
consecutive identical requests causes at most one actuator call. -/
theorem c1_gate_dedup (t s : Bool) (n : Nat) :
    set_display_smart t s = (if t = s then (false, s, []) else (true, t, [t])) ∧
    (gate_run s (List.replicate (n + 1) t)).2.length ≤ 1 := by
  refine ⟨set_display_smart_eq t s, ?_⟩
  simp only [List.replicate_succ, gate_run, set_display_smart_eq]
  by_cases h : t = s
  · subst h
    simp [gate_run_fixed]
  · simp [h, gate_run_fixed]

/-- C2 counterexample: the handler has no legacy raw-bytes form. The literal
payload "off" fails the structured JSON parse, is classified as a parse
failure and performs no actuation — it does not decode to SetPower(false). -/
theorem c2_raw_off_not_setpower :
    classify_payload "off" ≠ HandleResult.powerOff ∧
    classify_payload "off" = HandleResult.parseError ∧
    handle_payload "off" true = (HandleResult.parseError, true, []) :=
  ⟨by decide, by decide, by decide⟩

/-- C2 (amended): for every inbound payload, decoding attempts only the
structured JSON form [action, params]: action "on" ↦ SetPower(true),
"off" ↦ SetPower(false), other actions ↦ Unknown; when the structured parse
fails the payload is treated as a logged parse failure with no actuation —
there is no legacy raw fallback, so the raw bytes "off" (and "on") yield a
parse failure, not SetPower. -/
theorem c2_decode_structured_only (payload : String) (s : Bool) :
    (∀ msg, from_slice_MqttMessage payload = some msg →
      classify_payload payload =
        (if msg.action = "on" then HandleResult.powerOn
         else if msg.action = "off" then HandleResult.powerOff
         else HandleResult.unknownAction msg.action)) ∧
    (from_slice_MqttMessage payload = none →
      handle_payload payload s = (HandleResult.parseError, s, [])) ∧
    classify_payload "off" = HandleResult.parseError ∧
    classify_payload "on" = HandleResult.parseError := by
  refine ⟨?_, ?_, by decide, by decide⟩
  · intro msg h
    simp only [classify_payload, h]
    split <;> simp_all
  · intro h
    simp [handle_payload, h]

/-- Witness for C2: a structured "on" message decodes to SetPower(true) and a
garbage payload is a harmless parse failure. -/
theorem c2_decode_structured_only_witness :
    classify_payload "\x7b\"action\":\"on\"\x7d" = HandleResult.powerOn ∧
    handle_payload "garbage" true = (HandleResult.parseError, true, []) := by
  constructor
  · have h := (c2_decode_structured_only "\x7b\"action\":\"on\"\x7d" true).1
      ⟨"on", none⟩ (by rfl)
    simpa using h
  · exact (c2_decode_structured_only "garbage" true).2.1 (by rfl)

/-- C3 counterexample: under ten consecutive subscribe failures the observed
backoff sleeps are not the 1,2,4,8,16,32,60,60,60,60 of the claim — the code
doubles the delay before the first sleep and does not sleep on the tenth,
exhausting, failure. -/
theorem c3_delays_not_spec_sequence :
    observed_delays 10 ≠ [1, 2, 4, 8, 16, 32, 60, 60, 60, 60] := by decide

/-- C3 (amended): for ten consecutive subscribe failures the observed sleeps
are exactly 2,4,8,16,32,60,60,60,60 seconds (nine sleeps: the delay is
doubled from its current value and capped at 60 before each sleep, and the
tenth failure exhausts the retry budget without sleeping); the delay update
is monotonically non-decreasing and capped at the 60s ceiling. -/
theorem c3_backoff_delays :
    observed_delays 10 = [2, 4, 8, 16, 32, 60, 60, 60, 60] ∧
    List.Pairwise (· ≤ ·) (observed_delays 10) ∧
    (∀ d, d ≤ MAX_RETRY_DELAY →
      d ≤ min (d * 2) MAX_RETRY_DELAY ∧
      min (d * 2) MAX_RETRY_DELAY ≤ MAX_RETRY_DELAY) := by
  have hlist : observed_delays 10 = [2, 4, 8, 16, 32, 60, 60, 60, 60] := by
    decide
  refine ⟨hlist, by rw [hlist]; decide, ?_⟩
  intro d hd
  simp only [MAX_RETRY_DELAY] at hd ⊢
  omega

/-- Witness for C3: the concrete delay list, and the monotone delay update
applied at the initial delay 1. -/
theorem c3_backoff_delays_witness :
    observed_delays 10 = [2, 4, 8, 16, 32, 60, 60, 60, 60] ∧
    (1 : Nat) ≤ min (1 * 2) MAX_RETRY_DELAY :=
  ⟨c3_backoff_delays.1, (c3_backoff_delays.2.2 1 (by decide)).1⟩

theorem attempt_not_terminated (s : AgentState) (now : Nat) (env : AttemptEnv) :
    (attempt s now env).terminated = false := by
  rcases env with ⟨cfg, sub, polls⟩
  by_cases h : s.mqtt_running <;>
    simp only [attempt, h, Bool.not_true, Bool.not_false, if_true, if_false]
  cases cfg with
  | error e => rfl
  | ok c =>
    cases sub with
    | ok u => rfl
    | error e =>
      by_cases hr : s.retry_count + 1 ≥ MAX_RETRIES <;> simp [hr]

/-- C9: the supervisor loop breaks exactly on a closed host-command channel;
any agent that is not running (after Stop, a config error, or retry
exhaustion) accepts a Start command, which restarts the cycle in Connecting
with the retry counter and delay reset. -/
theorem c9_loop_termination (s : AgentState) (now : Nat) (input : SuperInput) :
    ((supervisor_step s now input).terminated = true ↔
      input = SuperInput.command none) ∧
    (s.mqtt_running = false →
      supervisor_step s now (SuperInput.command (some MqttCommand.Start)) =
        ⟨{ s with
            mqtt_running := true
            connection_state := ConnectionState.Connecting
            retry_count := 0
            current_retry_delay := INITIAL_RETRY_DELAY }, [], [], [], false⟩) := by
  constructor
  · cases input with
    | command cmd =>
      cases cmd with
      | none => simp [supervisor_step, handle_command]
      | some c =>
        cases c with
        | Start =>
          by_cases h : s.mqtt_running <;> simp [supervisor_step, handle_command, h]
        | Stop => simp [supervisor_step, handle_command]
    | connection env =>
      simp [supervisor_step, attempt_not_terminated]
  · intro h
    simp [supervisor_step, handle_command, h]

/-- Witness for C9: from the initial (idle) agent, a closed channel
terminates the loop and a Start command enters Connecting. -/
theorem c9_loop_termination_witness :
    (supervisor_step initialAgent 0 (SuperInput.command none)).terminated = true ∧
    supervisor_step initialAgent 0 (SuperInput.command (some MqttCommand.Start)) =
      ⟨{ initialAgent with
          mqtt_running := true
          connection_state := ConnectionState.Connecting
          retry_count := 0
          current_retry_delay := INITIAL_RETRY_DELAY }, [], [], [], false⟩ :=
  ⟨(c9_loop_termination initialAgent 0 (SuperInput.command none)).1.mpr rfl,
    (c9_loop_termination initialAgent 0
      (SuperInput.command (some MqttCommand.Start))).2 rfl⟩

/-- C10: the Stop handler assigns `connection_state = Disconnected` before
testing it for `Connected`, so the guarded `on_disconnection` update is
unreachable and `ConnectionStats` is unchanged for every prior state; Stop
otherwise stops the agent, disconnects and emits Stopped. -/
theorem c10_stop_preserves_stats (s : AgentState) (now : Nat) :
    (handle_command s now (some MqttCommand.Stop)).state.connection_stats =
      s.connection_stats ∧
    (handle_command s now (some MqttCommand.Stop)).state =
      { s with
          mqtt_running := false
          connection_state := ConnectionState.Disconnected } ∧
    (handle_command s now (some MqttCommand.Stop)).statuses =
      [MqttStatus.Stopped] ∧
    (handle_command s now (some MqttCommand.Stop)).sleeps = [] ∧
    (handle_command s now (some MqttCommand.Stop)).actuations = [] ∧
    (handle_command s now (some MqttCommand.Stop)).terminated = false := by
  refine ⟨?_, ?_, rfl, rfl, rfl, rfl⟩ <;> simp [handle_command]

theorem on_disconnection_preserves (st : ConnectionStats) (now : Nat) :
    (st.on_disconnection now).successful_connections =
      st.successful_connections ∧
    (st.on_disconnection now).total_connections = st.total_connections ∧
    (st.on_disconnection now).failed_connections = st.failed_connections := by
  unfold ConnectionStats.on_disconnection
  cases st.current_uptime <;> simp

theorem poll_loop_preserves (now : Nat) (polls : List PollResult) :
    ∀ s : AgentState,
      (poll_loop s now polls).state.retry_count = s.retry_count ∧
      (poll_loop s now polls).state.current_retry_delay =
        s.current_retry_delay ∧
      (poll_loop s now polls).state.connection_stats.successful_connections =
        s.connection_stats.successful_connections ∧
      (poll_loop s now polls).state.connection_stats.total_connections =
        s.connection_stats.total_connections := by
  induction polls with
  | nil => intro s; simp [poll_loop]
  | cons ev rest ih =>
    intro s
    by_cases h : s.mqtt_running
    · cases ev with
      | publish payload => simpa [poll_loop, h] using ih _
      | disconnect =>
        simp [poll_loop, h, (on_disconnection_preserves s.connection_stats now).1,
          (on_disconnection_preserves s.connection_stats now).2.1]
      | otherEvent => simpa [poll_loop, h] using ih _
      | connError msg =>
        simp [poll_loop, h, (on_disconnection_preserves s.connection_stats now).1,
          (on_disconnection_preserves s.connection_stats now).2.1]
      | pollTimeout => simpa [poll_loop, h] using ih _
    · simp [poll_loop, h, (on_disconnection_preserves s.connection_stats now).1,
        (on_disconnection_preserves s.connection_stats now).2.1]

theorem poll_loop_retry_count (now : Nat) (polls : List PollResult)
    (s : AgentState) :
    (poll_loop s now polls).state.retry_count = s.retry_count :=
  (poll_loop_preserves now polls s).1

theorem poll_loop_delay (now : Nat) (polls : List PollResult) (s : AgentState) :
    (poll_loop s now polls).state.current_retry_delay =
      s.current_retry_delay :=
  (poll_loop_preserves now polls s).2.1

theorem poll_loop_succ_conns (now : Nat) (polls : List PollResult)
    (s : AgentState) :
    (poll_loop s now polls).state.connection_stats.successful_connections =
      s.connection_stats.successful_connections :=
  (poll_loop_preserves now polls s).2.2.1

/-- C5 counterexample: from a connected session, a mid-session transport
error does not increment the retry counter — it is not counted toward the
retry budget (only subscribe failures are). -/
theorem c5_transport_error_not_counted :
    ¬ ((poll_loop connectedState 5
          [PollResult.connError "connection reset"]).state.retry_count =
        connectedState.retry_count + 1) := by decide

/-- C5 (amended): a mid-session transport error and a broker-initiated
disconnect are handled identically to each other: both record the
disconnection in the stats, set state Disconnected and break the session
loop, leaving the retry counter and backoff delay untouched and performing
no backoff sleep; the agent stays running, so the next supervisor iteration
reconnects immediately, and only subscribe failures consume retry budget. -/
theorem c5_mid_session_recovery (s : AgentState) (now : Nat) (e : String)
    (rest : List PollResult) (hrun : s.mqtt_running = true) :
    poll_loop s now (PollResult.connError e :: rest) =
      poll_loop s now (PollResult.disconnect :: rest) ∧
    poll_loop s now (PollResult.connError e :: rest) =
      ⟨{ s with
          connection_state := ConnectionState.Disconnected
          connection_stats := s.connection_stats.on_disconnection now },
        [], true⟩ ∧
    (poll_loop s now (PollResult.connError e :: rest)).state.retry_count =
      s.retry_count ∧
    (poll_loop s now
        (PollResult.connError e :: rest)).state.current_retry_delay =
      s.current_retry_delay ∧
    (poll_loop s now (PollResult.connError e :: rest)).state.mqtt_running =
      true := by
  refine ⟨?_, ?_, ?_, ?_, ?_⟩ <;> simp [poll_loop, hrun]

/-- Witness for C5: a transport error on the freshly connected agent equals
broker-disconnect handling and leaves the retry counter at its value. -/
theorem c5_mid_session_recovery_witness :
    poll_loop connectedState 5 [PollResult.connError "connection reset"] =
      poll_loop connectedState 5 [PollResult.disconnect] ∧
    (poll_loop connectedState 5
        [PollResult.connError "connection reset"]).state.retry_count =
      connectedState.retry_count :=
  ⟨(c5_mid_session_recovery connectedState 5 "connection reset" [] rfl).1,
    (c5_mid_session_recovery connectedState 5 "connection reset" [] rfl).2.2.1⟩

/-- C8: a decode failure is never fatal: the payload is classified as a
parse failure (the spec's Unknown class), no actuation is performed, the
gate state is untouched and the poll loop continues in the same state —
processing the bad publish is a no-op on the session. Decoding is a total
function, so it never raises. -/
theorem c8_decode_failure_nonfatal (payload : String) (s : AgentState)
    (now : Nat) (rest : List PollResult) (scr : Bool)
    (hparse : from_slice_MqttMessage payload = none)
    (hrun : s.mqtt_running = true) :
    classify_payload payload = HandleResult.parseError ∧
    handle_payload payload scr = (HandleResult.parseError, scr, []) ∧
    poll_loop s now (PollResult.publish payload :: rest) =
      poll_loop s now rest ∧
    poll_loop s now [PollResult.publish payload] = ⟨s, [], false⟩ := by
  obtain ⟨rc, cd, mr, cs, st, sc⟩ := s
  subst hrun
  refine ⟨by simp [classify_payload, hparse],
    by simp [handle_payload, hparse], ?_, ?_⟩ <;>
    simp [poll_loop, handle_payload, hparse]

/-- Witness for C8: a garbage payload received while connected leaves the
session exactly as it was. -/
theorem c8_decode_failure_nonfatal_witness :
    classify_payload "garbage" = HandleResult.parseError ∧
    poll_loop connectedState 7 [PollResult.publish "garbage"] =
      ⟨connectedState, [], false⟩ :=
  ⟨(c8_decode_failure_nonfatal "garbage" connectedState 7 [] true rfl rfl).1,
    (c8_decode_failure_nonfatal "garbage" connectedState 7 [] true rfl
      rfl).2.2.2⟩

/-- C6: when a connection attempt is started (state Connecting) and the
config load fails, the attempt is aborted: state becomes Disconnected, the
agent stops running, Error then Stopped are emitted, nothing else of the
agent state is mutated, no automatic retry happens (further connection
iterations are no-ops), and an explicit Start resumes. -/
theorem c6_config_error (s : AgentState) (now now2 : Nat) (e : String)
    (sub : Except String Unit) (polls : List PollResult)
    (hrun : s.mqtt_running = true)
    (_hstate : s.connection_state = ConnectionState.Connecting) :
    attempt s now ⟨Except.error e, sub, polls⟩ =
      ⟨{ s with
          connection_state := ConnectionState.Disconnected
          mqtt_running := false },
        [MqttStatus.Error ("启动 MQTT 连接失败（配置错误）：" ++ e),
          MqttStatus.Stopped], [], [], false⟩ ∧
    (∀ env,
      attempt (attempt s now ⟨Except.error e, sub, polls⟩).state now2 env =
        ⟨(attempt s now ⟨Except.error e, sub, polls⟩).state,
          [], [], [], false⟩) ∧
    (handle_command (attempt s now ⟨Except.error e, sub, polls⟩).state now2
        (some MqttCommand.Start)).state.mqtt_running = true := by
  have h1 : attempt s now ⟨Except.error e, sub, polls⟩ =
      ⟨{ s with
          connection_state := ConnectionState.Disconnected
          mqtt_running := false },
        [MqttStatus.Error ("启动 MQTT 连接失败（配置错误）：" ++ e),
          MqttStatus.Stopped], [], [], false⟩ := by
    simp [attempt, hrun]
  refine ⟨h1, ?_, ?_⟩
  · intro env
    rw [h1]
    simp [attempt]
  · rw [h1]
    simp [handle_command]

/-- Witness for C6: config load fails right after a fresh Start. -/
theorem c6_config_error_witness :
    attempt startState 0
        ⟨Except.error "config.toml not found", Except.ok (), []⟩ =
      ⟨{ startState with
          connection_state := ConnectionState.Disconnected
          mqtt_running := false },
        [MqttStatus.Error
            ("启动 MQTT 连接失败（配置错误）：" ++ "config.toml not found"),
          MqttStatus.Stopped], [], [], false⟩ :=
  (c6_config_error startState 0 1 "config.toml not found" (Except.ok ()) []
    rfl rfl).1

/-- C7 counterexample: the Started status is emitted as soon as the attempt
begins (before subscribe): an attempt that starts in Connecting and whose
open fails still emits Started and does not reach Connected. -/
theorem c7_started_emitted_on_failed_open :
    MqttStatus.Started ∈ (attempt startState 0 failureEnv).statuses ∧
    (attempt startState 0 failureEnv).state.connection_state ≠
      ConnectionState.Connected := by
  exact ⟨by decide, by decide⟩

/-- C7 (amended): with a loaded config, Started is emitted exactly when the
attempt begins in state Connecting (before the open is attempted, together
with `on_connection_start` stats), whether or not the open succeeds; on open
success the backoff counter and delay are reset and the success is recorded
in the stats. -/
theorem c7_started_emission (s : AgentState) (now : Nat) (cfg : Config)
    (sub : Except String Unit) (polls : List PollResult)
    (hrun : s.mqtt_running = true) :
    (MqttStatus.Started ∈
        (attempt s now ⟨Except.ok cfg, sub, polls⟩).statuses ↔
      s.connection_state = ConnectionState.Connecting) ∧
    (sub = Except.ok () →
      (attempt s now ⟨Except.ok cfg, sub, polls⟩).state.retry_count = 0 ∧
      (attempt s now
          ⟨Except.ok cfg, sub, polls⟩).state.current_retry_delay =
        INITIAL_RETRY_DELAY ∧
      (attempt s now ⟨Except.ok cfg, sub,
          polls⟩).state.connection_stats.successful_connections =
        s.connection_stats.successful_connections + 1) := by
  constructor
  · cases sub with
    | ok u =>
      by_cases hc : s.connection_state = ConnectionState.Connecting <;>
        simp [attempt, hrun, hc]
    | error e =>
      by_cases hc : s.connection_state = ConnectionState.Connecting <;>
        by_cases hr : s.retry_count + 1 ≥ MAX_RETRIES <;>
          simp [attempt, hrun, hc, hr]
  · intro hsub
    subst hsub
    refine ⟨?_, ?_, ?_⟩ <;>
      by_cases hc : s.connection_state = ConnectionState.Connecting <;>
        simp [attempt, hrun, hc, poll_loop_retry_count, poll_loop_delay,
          poll_loop_succ_conns, ConnectionStats.on_connection_success,
          ConnectionStats.on_connection_start]

/-- Witness for C7: an attempt from a fresh Start (Connecting) with a
successful open emits Started and resets the backoff counter. -/
theorem c7_started_emission_witness :
    MqttStatus.Started ∈
      (attempt startState 0 ⟨Except.ok okConfig, Except.ok (), []⟩).statuses ∧
    (attempt startState 0
        ⟨Except.ok okConfig, Except.ok (), []⟩).state.retry_count = 0 :=
  ⟨(c7_started_emission startState 0 okConfig (Except.ok ()) [] rfl).1.mpr rfl,
    ((c7_started_emission startState 0 okConfig (Except.ok ()) [] rfl).2
      rfl).1⟩

/-- C4: retrying stops exactly when the failure count reaches MAX_RETRIES:
the subscribe failure that brings the count to 10 emits Error then Stopped,
performs no backoff sleep, stops the agent (so later connection iterations
are no-ops rather than retries), and the supervisor still accepts a future
Start, which restarts the cycle; a failure below the ceiling instead sleeps
and keeps running. -/
theorem c4_retry_exhaustion (s : AgentState) (now now2 : Nat) (cfg : Config)
    (e : String) (polls : List PollResult)
    (hrun : s.mqtt_running = true)
    (hstate : s.connection_state = ConnectionState.Reconnecting) :
    (s.retry_count + 1 = MAX_RETRIES →
      (attempt s now ⟨Except.ok cfg, Except.error e, polls⟩).statuses =
        [MqttStatus.Error ("MQTT 订阅失败: " ++ e), MqttStatus.Stopped] ∧
      (attempt s now ⟨Except.ok cfg, Except.error e, polls⟩).sleeps = [] ∧
      (attempt s now
          ⟨Except.ok cfg, Except.error e, polls⟩).state.mqtt_running =
        false ∧
      (attempt s now
          ⟨Except.ok cfg, Except.error e, polls⟩).state.retry_count =
        MAX_RETRIES ∧
      (∀ env,
        attempt (attempt s now
            ⟨Except.ok cfg, Except.error e, polls⟩).state now2 env =
          ⟨(attempt s now ⟨Except.ok cfg, Except.error e, polls⟩).state,
            [], [], [], false⟩) ∧
      (handle_command (attempt s now
            ⟨Except.ok cfg, Except.error e, polls⟩).state now2
          (some MqttCommand.Start)).state =
        { (attempt s now ⟨Except.ok cfg, Except.error e, polls⟩).state with
            mqtt_running := true
            connection_state := ConnectionState.Connecting
            retry_count := 0
            current_retry_delay := INITIAL_RETRY_DELAY }) ∧
    (s.retry_count + 1 < MAX_RETRIES →
      (attempt s now ⟨Except.ok cfg, Except.error e, polls⟩).statuses = [] ∧
      (attempt s now ⟨Except.ok cfg, Except.error e, polls⟩).sleeps =
        [min (s.current_retry_delay * 2) MAX_RETRY_DELAY] ∧
      (attempt s now
          ⟨Except.ok cfg, Except.error e, polls⟩).state.mqtt_running =
        true) := by
  constructor
  · intro hretry
    have h1 : attempt s now ⟨Except.ok cfg, Except.error e, polls⟩ =
        ⟨{ s with
            connection_state := ConnectionState.Disconnected
            connection_stats := s.connection_stats.on_connection_failure
            retry_count := MAX_RETRIES
            mqtt_running := false },
          [MqttStatus.Error ("MQTT 订阅失败: " ++ e), MqttStatus.Stopped],
          [], [], false⟩ := by
      simp [attempt, hrun, hstate, hretry]
    rw [h1]
    refine ⟨rfl, rfl, rfl, rfl, ?_, ?_⟩
    · intro env
      simp [attempt]
    · simp [handle_command]
  · intro hretry
    have hr : ¬ (s.retry_count + 1 ≥ MAX_RETRIES) := by omega
    have h1 : attempt s now ⟨Except.ok cfg, Except.error e, polls⟩ =
        ⟨{ s with
            connection_state := ConnectionState.Reconnecting
            connection_stats := s.connection_stats.on_connection_failure
            retry_count := s.retry_count + 1
            current_retry_delay :=
              min (s.current_retry_delay * 2) MAX_RETRY_DELAY },
          [], [min (s.current_retry_delay * 2) MAX_RETRY_DELAY],
          [], false⟩ := by
      simp [attempt, hrun, hstate, hr]
    rw [h1]
    exact ⟨rfl, rfl, hrun⟩

/-- Witness for C4: the tenth consecutive subscribe failure (after nine
retries) emits Error and Stopped and stops the agent. -/
theorem c4_retry_exhaustion_witness :
    (attempt nineFailState 0
        ⟨Except.ok okConfig, Except.error "Network unavailable", []⟩).statuses =
      [MqttStatus.Error ("MQTT 订阅失败: " ++ "Network unavailable"),
        MqttStatus.Stopped] ∧
    (attempt nineFailState 0
        ⟨Except.ok okConfig, Except.error "Network unavailable",
          []⟩).state.mqtt_running = false :=
  ⟨((c4_retry_exhaustion nineFailState 0 1 okConfig "Network unavailable" []
      rfl rfl).1 rfl).1,
    ((c4_retry_exhaustion nineFailState 0 1 okConfig "Network unavailable" []
      rfl rfl).1 rfl).2.2.1⟩

end AutoScreenSwitch
